import Mathlib

/-!
Shallow embedding of pcdsdevices/daq.py, the LCLS1 DAQ flyer controller.

Each definition carries a note tying it to the Python source it translates.
The external acquisition-control endpoint (pydaq.Control) is modelled by
oracle parameters: the integer returned by control.state() and booleans
saying whether a given RPC call raises. Python exceptions are modelled with
an explicit error type and Except-valued functions; Python None is Option.
-/

/-- The Python exceptions that can arise in daq.py. -/
inductive PyErr
  | typeError (msg : String)
  | valueError (msg : String)
  | runtimeError (msg : String)
  | nameError (missing : String)
  | keyError (key : String)
  | attributeError (msg : String)
  deriving DecidableEq, Repr

/-- daq.py lines 59-61: Daq._state_enum = enum.Enum with members
Disconnected=0, Connected=1, Configured=2, Open=3, Running=4. -/
inductive DaqState
  | Disconnected | Connected | Configured | Open | Running
  deriving DecidableEq, Repr

/-- daq.py line 62: Daq._mode_enum = enum.Enum ScanMode with members
on=0, manual=1, auto=2. -/
inductive ScanMode
  | on | manual | auto
  deriving DecidableEq, Repr

/-- A control device appearing in a controls dict. daq.py _ctrl_arg reads
device.position and falls back to device.value on AttributeError, so we
model position as possibly absent and value as always present. -/
structure CtrlDev where
  position : Option Int
  value : Int
  deriving DecidableEq, Repr

/-- The stored configuration snapshot self._config (daq.py lines 378-380),
and the shape of default_config (lines 63-68). Fields hold the raw
arguments that were passed to configure: events/duration/controls may be
None, record may be None if explicitly passed as None, mode is the
resolved enum member. -/
structure RunConfig where
  events : Option Int
  duration : Option ℚ
  use_l3t : Bool
  record : Option Bool
  controls : Option (List (String × CtrlDev))
  mode : ScanMode
  deriving DecidableEq, Repr

/-- daq.py lines 63-68: Daq.default_config. -/
def Daq.default_config : RunConfig :=
  { events := none
  , duration := none
  , use_l3t := false
  , record := some false
  , controls := none
  , mode := ScanMode.on }

/-- The mutable fields of a Daq instance that the claims touch:
self._control (modelled as a Bool saying whether the handle is present),
self._config, and self._is_bluesky (daq.py lines 74-78). -/
structure DaqSt where
  control : Bool
  config : Option RunConfig
  is_bluesky : Bool
  deriving DecidableEq, Repr

/-- Oracle for the external pydaq.Control endpoint: the numeric state it
reports, and whether its connect and configure RPCs raise. -/
structure Endpoint where
  stateNum : ℕ
  connectOk : Bool
  configureOk : Bool
  deriving DecidableEq, Repr

/-- Decoding self._state_enum(num): valid for 0..4, otherwise the enum
call raises ValueError (daq.py line 96). -/
def decodeState (n : ℕ) : Except PyErr DaqState :=
  match n with
  | 0 => .ok DaqState.Disconnected
  | 1 => .ok DaqState.Connected
  | 2 => .ok DaqState.Configured
  | 3 => .ok DaqState.Open
  | 4 => .ok DaqState.Running
  | _ => .error (.valueError ("not a valid PydaqState"))

/-- daq.py lines 91-98: the state property. When connected it queries the
endpoint and decodes the reported number; otherwise Disconnected. The
source returns the enum member name string; we return the member itself. -/
def Daq.state (st : DaqSt) (ep : Endpoint) : Except PyErr DaqState :=
  if st.control then decodeState ep.stateNum else .ok DaqState.Disconnected

/-- daq.py lines 101-122: connect() is a no-op when already connected;
otherwise it builds and connects a pydaq.Control, and on any exception
ends with self._control = None. Failure is logged, never raised. -/
def Daq.connect (st : DaqSt) (ep : Endpoint) : DaqSt :=
  if st.control then st else { st with control := ep.connectOk }

/-- daq.py lines 481-493: read_configuration() returns a copy of
self._config, or of default_config when unconfigured. -/
def Daq.read_configuration (st : DaqSt) : RunConfig :=
  st.config.getD Daq.default_config

/-- CPython builtin any() accepts exactly one iterable argument; a call
with two positional arguments, as written in daq.py lines 253, 591 and
645, raises TypeError regardless of the argument values. -/
def anyTwoArgsMsg : String := "any() takes exactly one argument (2 given)"

def pyAny2 (_a : Option Int) (_b : Option ℚ) : Except PyErr Bool :=
  .error (.typeError anyTwoArgsMsg)

/-- What a call to Daq.complete performs (daq.py lines 238-256):
whether the end-watcher thread from _get_end_status was launched, whether
self.stop() was called, and whether complete returned the status handle
(.ok) or raised. -/
structure CompleteOutcome where
  endThreadStarted : Bool
  stopCalled : Bool
  ret : Except PyErr Unit
  deriving Repr

/-- daq.py lines 238-256: complete() first builds the end status (which
launches the finish thread), then reads the configuration and evaluates
the condition: if not any(config with two arguments) then self.stop().
The two-argument any() call raises before stop or return is reached. -/
def Daq.complete (st : DaqSt) : CompleteOutcome :=
  let config := Daq.read_configuration st
  match pyAny2 config.events config.duration with
  | .error e => { endThreadStarted := true, stopCalled := false, ret := .error e }
  | .ok b =>
      if b = false then
        { endThreadStarted := true, stopCalled := true, ret := .ok () }
      else
        { endThreadStarted := true, stopCalled := false, ret := .ok () }

/-- The mode argument accepted by configure (daq.py docstring: str or int;
None means use the previous configuration, and the stored value is an
enum member). -/
inductive ModeArg
  | noneArg
  | str (s : String)
  | int (n : Int)
  | enumVal (m : ScanMode)
  deriving DecidableEq, Repr

def attrNameMsg : String := "attribute name must be string"

/-- CPython getattr(Daq._mode_enum, x): when x is the name of a member it
returns that member; for any other string it raises AttributeError; for a
non-string x (int, enum member, None) it raises TypeError because the
attribute name must be a string. Used at daq.py line 364. -/
def getattrModeEnum (arg : ModeArg) : Except PyErr ScanMode :=
  match arg with
  | .str s =>
      if s = "on" then .ok ScanMode.on
      else if s = "manual" then .ok ScanMode.manual
      else if s = "auto" then .ok ScanMode.auto
      else .error (.attributeError s)
  | .int _ => .error (.typeError attrNameMsg)
  | .enumVal _ => .error (.typeError attrNameMsg)
  | .noneArg => .error (.typeError attrNameMsg)

/-- The enum call Daq._mode_enum(x) (daq.py line 367): returns the member
with value x for x in 0..2, returns the member itself when x already is
one, and raises ValueError otherwise. -/
def modeEnumCall (arg : ModeArg) : Except PyErr ScanMode :=
  match arg with
  | .int 0 => .ok ScanMode.on
  | .int 1 => .ok ScanMode.manual
  | .int 2 => .ok ScanMode.auto
  | .enumVal m => .ok m
  | _ => .error (.valueError ("not a valid ScanMode"))

def invalidModeMsg : String := "is not a valid scan mode!"

/-- daq.py lines 361-369, the mode-resolution block of configure:
if mode is None, take the previous configuration mode (an enum member);
then try getattr on the mode enum, catching only AttributeError, in which
case fall back to the enum call, turning its ValueError into the reported
invalid-scan-mode ValueError. A TypeError from getattr propagates. -/
def resolve_mode (arg : ModeArg) (oldMode : ScanMode) : Except PyErr ScanMode :=
  let mode : ModeArg :=
    match arg with
    | .noneArg => .enumVal oldMode
    | m => m
  match getattrModeEnum mode with
  | .ok m => .ok m
  | .error (.attributeError _) =>
      match modeEnumCall mode with
      | .ok m => .ok m
      | .error (.valueError _) => .error (.valueError invalidModeMsg)
      | .error e => .error e
  | .error e => .error e

/-- A Python module top-level statement, as far as name binding goes:
a binding statement (import, assignment, def, class) that first evaluates
the listed names and then binds its target, or a bare expression statement
that evaluates the listed names. A def or class only evaluates names
needed at definition time (decorators, base classes, class bodies). -/
inductive PyStmt
  | bindName (target : String) (uses : List String)
  | exprStmt (uses : List String)
  deriving DecidableEq, Repr

/-- The first name in the list that is not bound in the environment. -/
def firstMissing (env : List String) : List String → Option String
  | [] => none
  | u :: rest => if env.contains u then firstMissing env rest else some u

/-- Executing module top-level statements in order: evaluating an unbound
name raises NameError, aborting the import with the offending name and
the environment bound so far. -/
def execStmts (env : List String) : List PyStmt → Except (String × List String) (List String)
  | [] => .ok env
  | PyStmt.bindName n uses :: rest =>
      match firstMissing env uses with
      | some m => .error (m, env)
      | none => execStmts (n :: env) rest
  | PyStmt.exprStmt uses :: rest =>
      match firstMissing env uses with
      | some m => .error (m, env)
      | none => execStmts env rest

/-- The top-level statements of daq.py in source order. Imports bind their
targets (lines 1-19, the pydaq try/except uses logger and ends with a
binding either way); BEGIN_TIMEOUT (line 22); def check_connect (line 26,
no names evaluated at def time); class Daq (line 44, whose class body
evaluates enum, the FlyerInterface base and the check_connect decorators);
the bare expression _daq_instance (line 602); then def register_daq
(line 605), def daq_wrapper (line 614), the daq_decorator assignment
(line 629, evaluating make_decorator and daq_wrapper) and def calib_cycle
(line 632). -/
def daqModuleStmts : List PyStmt :=
  [ PyStmt.bindName ("os") []
  , PyStmt.bindName ("functools") []
  , PyStmt.bindName ("threading") []
  , PyStmt.bindName ("copy") []
  , PyStmt.bindName ("enum") []
  , PyStmt.bindName ("logging") []
  , PyStmt.bindName ("Status") []
  , PyStmt.bindName ("status_wait") []
  , PyStmt.bindName ("FlyerInterface") []
  , PyStmt.bindName ("kickoff") []
  , PyStmt.bindName ("complete") []
  , PyStmt.bindName ("fly_during_wrapper") []
  , PyStmt.bindName ("make_decorator") []
  , PyStmt.bindName ("logger") [("logging")]
  , PyStmt.bindName ("pydaq") [("logger")]
  , PyStmt.bindName ("BEGIN_TIMEOUT") []
  , PyStmt.bindName ("check_connect") []
  , PyStmt.bindName ("Daq") [("enum"), ("FlyerInterface"), ("check_connect")]
  , PyStmt.exprStmt [("_daq_instance")]
  , PyStmt.bindName ("register_daq") []
  , PyStmt.bindName ("daq_wrapper") []
  , PyStmt.bindName ("daq_decorator") [("make_decorator"), ("daq_wrapper")]
  , PyStmt.bindName ("calib_cycle") [] ]

/-- The result of importing daq.py (executing its top level from an empty
environment). -/
def daqModuleRun : Except (String × List String) (List String) :=
  execStmts [] daqModuleStmts

/-- The environment daq.py has bound by the time line 602 is reached. -/
def daqModuleEnvAtError : List String :=
  [ ("Daq"), ("check_connect"), ("BEGIN_TIMEOUT"), ("pydaq"), ("logger")
  , ("make_decorator"), ("fly_during_wrapper"), ("complete"), ("kickoff")
  , ("FlyerInterface"), ("status_wait"), ("Status"), ("logging"), ("enum")
  , ("copy"), ("threading"), ("functools"), ("os") ]

/-- daq.py lines 474-479: _check_duration raises RuntimeError for a
duration that is provided and less than 1 second. -/
def durationErrMsg : String :=
  "Duration argument less than 1 is unreliable. Please use the events argument to specify the length of very short runs."

def Daq._check_duration (duration : Option ℚ) : Except PyErr Unit :=
  match duration with
  | some d => if d < 1 then .error (.runtimeError durationErrMsg) else .ok ()
  | none => .ok ()

/-- daq.py lines 418-429: _ctrl_arg builds (name, value) pairs from a
controls dict, reading device.position and falling back to device.value
on AttributeError. -/
def Daq._ctrl_arg (ctrl : List (String × CtrlDev)) : List (String × Int) :=
  ctrl.map (fun p => (p.1, p.2.position.getD p.2.value))

/-- The keyword arguments sent to control.configure (a Python dict; an
absent key and a key deleted by the trailing None-removal loop of
_config_args coincide in this model). -/
structure PydaqConfigArgs where
  record : Option Bool
  events : Option Int
  l3t_events : Option Int
  controls : Option (List (String × Int))
  deriving DecidableEq, Repr

/-- daq.py lines 390-416: _config_args. record comes from the request or,
when the request passed None, from the stored configuration; use_l3t
selects an l3t_events=0 or events=0 placeholder; controls are resolved
only when explicitly provided; entries whose value is None are removed
(here: a None record yields an absent record key). -/
def Daq._config_args (st : DaqSt) (record : Option Bool) (use_l3t : Bool)
    (controls : Option (List (String × CtrlDev))) : PydaqConfigArgs :=
  let config := Daq.read_configuration st
  let recordVal : Option Bool :=
    match record with
    | none => config.record
    | some b => some b
  let base : PydaqConfigArgs :=
    if use_l3t then
      { record := recordVal, events := none, l3t_events := some 0, controls := none }
    else
      { record := recordVal, events := some 0, l3t_events := none, controls := none }
  match controls with
  | none => base
  | some c => { base with controls := some (Daq._ctrl_arg c) }

def stateConflictMsg : String := "Cannot configure from state"

def noConnectMsg : String := "Could not connect to DAQ"

/-- The observable outcome of a configure call: the Daq state afterwards,
the returned (old, new) pair or the raised exception, and whether the
endpoint-facing control.configure RPC was invoked. -/
structure ConfigureOutcome where
  st : DaqSt
  ret : Except PyErr (RunConfig × RunConfig)
  epConfigureCalled : Bool
  deriving Repr

/-- daq.py lines 304-388: configure. The check_connect decorator attempts
an automatic connect and fails fast if still unconnected (lines 26-41).
Then, in order: the state precondition naming the offending state, the
duration validation, reading the old configuration, mode resolution,
building the endpoint arguments, and the endpoint call. A raising
endpoint call is caught: the stored configuration is reset to None and
configure still returns the (old, new) pair. On success the stored
configuration is exactly the requested arguments with the resolved mode. -/
def Daq.configure (st : DaqSt) (ep : Endpoint) (events : Option Int)
    (duration : Option ℚ) (record : Option Bool) (use_l3t : Bool)
    (controls : Option (List (String × CtrlDev))) (mode : ModeArg) :
    ConfigureOutcome :=
  let st1 := Daq.connect st ep
  if st1.control = false then
    { st := st1, ret := .error (.runtimeError noConnectMsg), epConfigureCalled := false }
  else
    match Daq.state st1 ep with
    | .error e => { st := st1, ret := .error e, epConfigureCalled := false }
    | .ok s =>
        if s = DaqState.Connected ∨ s = DaqState.Configured then
          match Daq._check_duration duration with
          | .error e => { st := st1, ret := .error e, epConfigureCalled := false }
          | .ok _ =>
              let old := Daq.read_configuration st1
              match resolve_mode mode old.mode with
              | .error e => { st := st1, ret := .error e, epConfigureCalled := false }
              | .ok m =>
                  let _cargs := Daq._config_args st1 record use_l3t controls
                  if ep.configureOk then
                    let newCfg : RunConfig :=
                      { events := events, duration := duration, use_l3t := use_l3t
                      , record := record, controls := controls, mode := m }
                    let st2 := { st1 with config := some newCfg }
                    { st := st2, ret := .ok (old, Daq.read_configuration st2)
                    , epConfigureCalled := true }
                  else
                    let st2 := { st1 with config := none }
                    { st := st2, ret := .ok (old, Daq.read_configuration st2)
                    , epConfigureCalled := true }
        else
          { st := st1, ret := .error (.runtimeError stateConflictMsg)
          , epConfigureCalled := false }

/-- The keyword arguments sent to control.begin (a Python dict). The
duration entry is the [seconds, nanoseconds] pair built at daq.py
lines 461-463. -/
structure BeginArgs where
  events : Option Int
  l3t_events : Option Int
  duration : Option (Int × Int)
  controls : Option (List (String × Int))
  deriving DecidableEq, Repr

/-- daq.py lines 431-472: _begin_args. daqState is the value the state
property reports during this call. In order: the plan-attached special
case (is_bluesky, mode not on, state not Open forces events=1,
duration=None, use_l3t=False); the fallback to the stored configuration
when neither events nor duration was passed; the events branch (resolving
use_l3t from the stored configuration when unset, then choosing the
l3t_events or events key); the duration branch (int() truncation to a
seconds/nanoseconds pair, nonnegative here, so Int.floor agrees); the
run-forever marker events=0; and the controls resolution. -/
def Daq._begin_args (st : DaqSt) (daqState : DaqState) (events0 : Option Int)
    (duration0 : Option ℚ) (use_l3t0 : Option Bool)
    (controls0 : Option (List (String × CtrlDev))) : BeginArgs :=
  let config := Daq.read_configuration st
  let sc : Bool := st.is_bluesky && !(config.mode = ScanMode.on) && !(daqState = DaqState.Open)
  let events1 := if sc then some (1 : Int) else events0
  let duration1 := if sc then none else duration0
  let use_l3t1 := if sc then some false else use_l3t0
  let events2 := if events1 = none ∧ duration1 = none then config.events else events1
  let duration2 := if events1 = none ∧ duration1 = none then config.duration else duration1
  let core : BeginArgs :=
    match events2 with
    | some ev =>
        let l3 : Option Bool :=
          match use_l3t1 with
          | none => if st.config ≠ none then some config.use_l3t else none
          | some b => some b
        if l3 = some true then
          { events := none, l3t_events := some ev, duration := none, controls := none }
        else
          { events := some ev, l3t_events := none, duration := none, controls := none }
    | none =>
        match duration2 with
        | some d =>
            let secs : Int := ⌊d⌋
            let nsec : Int := ⌊(d - (secs : ℚ)) * 1000000000⌋
            { events := none, l3t_events := none, duration := some (secs, nsec)
            , controls := none }
        | none =>
            { events := some 0, l3t_events := none, duration := none, controls := none }
  let ctrls : Option (List (String × Int)) :=
    match controls0 with
    | none =>
        match config.controls with
        | none => none
        | some cd => some (Daq._ctrl_arg cd)
    | some cd => some (Daq._ctrl_arg cd)
  { core with controls := ctrls }

/-- The outcome of a disconnect call: the Daq state afterwards and whether
the call returned or propagated an endpoint exception. -/
structure DisconnectOutcome where
  st : DaqSt
  ret : Except PyErr Unit
  deriving Repr

def epDisconnectMsg : String := "endpoint disconnect failed"

/-- daq.py lines 124-134: disconnect() calls control.disconnect when a
handle exists, then clears the handle and the cached configuration. There
is no try/except: an exception from the endpoint call propagates and the
clearing statements after it never run. -/
def Daq.disconnect (st : DaqSt) (epDisconnectOk : Bool) : DisconnectOutcome :=
  if st.control then
    if epDisconnectOk then
      { st := { st with control := false, config := none }, ret := .ok () }
    else
      { st := st, ret := .error (.runtimeError epDisconnectMsg) }
  else
    { st := { st with control := false, config := none }, ret := .ok () }

/-- daq.py line 219/223: the readiness test self.state in
(Configured, Open). -/
def daqReady (s : DaqState) : Bool :=
  s = DaqState.Configured || s = DaqState.Open

/-- daq.py lines 215-222, the readiness poll inside start_thread:
tmo starts at BEGIN_TIMEOUT = 2 and dt = 0.1; while tmo > 0, one state
query is made, the loop breaks if it reports ready and otherwise tmo is
decremented by dt. trace n is the state reported by the n-th state query
of the thread and i is the index of the next query to consume; the
returned value is the index of the first query not consumed by the loop
(the one the final post-loop check will consume). The source numerals are
exact here (float drift is ignored). -/
def pollLoop (trace : ℕ → DaqState) (tmo : ℚ) (i : ℕ) : ℕ :=
  if h : 0 < tmo then
    if daqReady (trace i) then i + 1
    else pollLoop trace (tmo - 1/10) (i + 1)
  else i
termination_by ⌈tmo * 10⌉.toNat
decreasing_by
  have h1 : (tmo - 1/10) * 10 = tmo * 10 - 1 := by ring
  rw [h1, Int.ceil_sub_one]
  have h2 : (0 : ℚ) < tmo * 10 := by linarith
  have h3 : 0 < ⌈tmo * 10⌉ := Int.ceil_pos.mpr h2
  omega

/-- What the background thread resolves: the arguments of the begin call
it issued, if any, and the success flag it writes into the status. -/
structure ThreadResult where
  beginSent : Option BeginArgs
  success : Bool
  deriving DecidableEq, Repr

/-- daq.py lines 212-229: the body of start_thread launched by kickoff.
It first computes the begin arguments (whose plan-attached special case
performs one state query, trace 0), then runs the readiness poll starting
from query index 1, then re-checks the state once more (one further
query) and either issues control.begin and marks the status successful,
or marks it failed. -/
def start_thread (st : DaqSt) (trace : ℕ → DaqState) (events : Option Int)
    (duration : Option ℚ) (use_l3t : Option Bool)
    (controls : Option (List (String × CtrlDev))) : ThreadResult :=
  let begin_args := Daq._begin_args st (trace 0) events duration use_l3t controls
  let j := pollLoop trace 2 1
  if daqReady (trace j) then
    { beginSent := some begin_args, success := true }
  else
    { beginSent := none, success := false }

/-- The plan lifecycle messages daq.py cares about. -/
inductive MsgCmd
  | open_run | close_run | create | save | other
  deriving DecidableEq, Repr

/-- An object that Python yield from is applied to: either a generator
(iterable, producing messages) or a non-iterable object such as a
functools partial application. -/
inductive PyIterArg
  | gen (msgs : List MsgCmd)
  | nonIterable
  deriving DecidableEq, Repr

def notIterableMsg : String := "object is not iterable"

/-- Python semantics of yield from x: iterating a generator yields its
messages; yield from applied to a non-iterable raises TypeError. -/
def yieldFrom (x : PyIterArg) : Except PyErr (List MsgCmd) :=
  match x with
  | .gen msgs => .ok msgs
  | .nonIterable => .error (.typeError notIterableMsg)

/-- The observable outcome of running the daq_wrapper generator to
completion: the final content of the engine msg_hook slot (true means the
interpreter callback is installed), the messages the wrapper yielded, and
normal return versus a propagated exception. -/
structure WrapperOutcome where
  msg_hook_installed : Bool
  yielded : List MsgCmd
  ret : Except PyErr Unit
  deriving Repr

/-- daq.py lines 614-626: daq_wrapper(plan). Inside try: the hook is
installed, then yield from is applied to
functools.partial(fly_during_wrapper, flyers=[daq]) - a partial object,
not a generator, so iteration raises TypeError; the plan argument is
never used. The except clause clears the hook and re-raises. The normal
path would also clear the hook after the yield from. -/
def daq_wrapper (plan : List MsgCmd) : WrapperOutcome :=
  let _unusedPlan := plan
  match yieldFrom PyIterArg.nonIterable with
  | .ok msgs => { msg_hook_installed := false, yielded := msgs, ret := .ok () }
  | .error e => { msg_hook_installed := false, yielded := [], ret := .error e }

/-- A value stored in the configuration dict, as needed to model Python
len() and dict lookup in describe_configuration. -/
inductive CfgVal
  | intV (n : Int)
  | ratV (q : ℚ)
  | boolV (b : Bool)
  | noneV
  | ctrlsV (l : List (String × CtrlDev))
  | modeV (m : ScanMode)
  deriving DecidableEq, Repr

/-- The dict returned by read_configuration, with its six keys in the
order of daq.py lines 63-68 and 378-380. -/
def configDict (c : RunConfig) : List (String × CfgVal) :=
  [ (("events"), match c.events with | some n => CfgVal.intV n | none => CfgVal.noneV)
  , (("duration"), match c.duration with | some q => CfgVal.ratV q | none => CfgVal.noneV)
  , (("use_l3t"), CfgVal.boolV c.use_l3t)
  , (("record"), match c.record with | some b => CfgVal.boolV b | none => CfgVal.noneV)
  , (("controls"), match c.controls with | some l => CfgVal.ctrlsV l | none => CfgVal.noneV)
  , (("mode"), CfgVal.modeV c.mode) ]

/-- Python dict subscription: a missing key raises KeyError. -/
def dictGet (d : List (String × CfgVal)) (k : String) : Except PyErr CfgVal :=
  match d.lookup k with
  | some v => .ok v
  | none => .error (.keyError k)

/-- Python len(): defined for the controls list, TypeError otherwise
(in particular len(None)). -/
def pyLen (v : CfgVal) : Except PyErr ℕ :=
  match v with
  | .ctrlsV l => .ok l.length
  | _ => .error (.typeError ("object has no len"))

/-- One field entry of the dict describe_configuration returns:
source, dtype and shape. -/
structure FieldDesc where
  source : String
  dtype : String
  shape : Option (ℕ × ℕ)
  deriving DecidableEq, Repr

/-- daq.py lines 495-525: describe_configuration. The try block reads the
configuration and evaluates [len(config of key control), 2]; the except
clause catches only RuntimeError and AttributeError, turning them into a
None shape. The configuration dict has a controls key but no control key,
so the subscription raises KeyError, which is not caught and propagates
out of describe_configuration; the dict literal of the return statement
(with the controls shape filled in) is never reached on that path. -/
def Daq.describe_configuration (st : DaqSt) : Except PyErr (List (String × FieldDesc)) :=
  let attempt : Except PyErr (Option (ℕ × ℕ)) :=
    match dictGet (configDict (Daq.read_configuration st)) ("control") with
    | .ok v =>
        match pyLen v with
        | .ok n => .ok (some (n, 2))
        | .error e => .error e
    | .error e => .error e
  let controls_shape : Except PyErr (Option (ℕ × ℕ)) :=
    match attempt with
    | .error (.runtimeError _) => .ok none
    | .error (.attributeError _) => .ok none
    | other => other
  match controls_shape with
  | .error e => .error e
  | .ok shp =>
      .ok [ (("events"), { source := "daq_events_in_run", dtype := "number", shape := none })
          , (("duration"), { source := "daq_run_duration", dtype := "number", shape := none })
          , (("use_l3t"), { source := "daq_use_l3trigger", dtype := "number", shape := none })
          , (("record"), { source := "daq_record_run", dtype := "number", shape := none })
          , (("controls"), { source := "daq_control_vars", dtype := "array", shape := shp })
          , (("always_on"), { source := "daq_always_on", dtype := "number", shape := none }) ]

/-- A concrete connected, configured Daq state used by closed statements. -/
def stConn : DaqSt :=
  { control := true, config := some Daq.default_config, is_bluesky := false }

/-- An endpoint in the Configured state whose configure RPC raises. -/
def epFail : Endpoint := { stateNum := 2, connectOk := true, configureOk := false }

/-- An endpoint in the Configured state whose RPCs all succeed. -/
def epOkC : Endpoint := { stateNum := 2, connectOk := true, configureOk := true }

/-- A stored configuration with events=100, as in testable property P5. -/
def cfg100 : RunConfig :=
  { events := some 100, duration := none, use_l3t := false, record := some false
  , controls := none, mode := ScanMode.on }

/-- A connected Daq holding cfg100, not plan-attached. -/
def st100 : DaqSt := { control := true, config := some cfg100, is_bluesky := false }

/-- A stored configuration with neither events nor duration (run forever). -/
def cfgForever : RunConfig :=
  { events := none, duration := none, use_l3t := false, record := some false
  , controls := none, mode := ScanMode.on }

/-- A connected Daq holding cfgForever, not plan-attached. -/
def stForever : DaqSt := { control := true, config := some cfgForever, is_bluesky := false }

/-- Claim C1: for every stored configuration, complete() would issue a stop
exactly when both events and duration are unset and always return its
handle. In the code as written, complete() evaluates
any(config, config) with two arguments, so it raises TypeError on every
call, never issues the stop and never returns the handle; only the end
watcher thread launched by _get_end_status before the faulty line has
started. -/
theorem complete_always_raises_typeerror (st : DaqSt) :
    (Daq.complete st).ret = .error (.typeError anyTwoArgsMsg)
    ∧ (Daq.complete st).stopCalled = false
    ∧ (Daq.complete st).endThreadStarted = true :=
  ⟨rfl, rfl, rfl⟩

/-- Claim C2: configure is claimed to resolve a symbolic mode name or an
already-valid mode value and to report an invalid-mode error otherwise.
In the code, only string names resolve: a valid integer mode such as 0
(and the default path, which feeds the stored enum member back in) makes
getattr raise TypeError, which the except AttributeError clause does not
catch, so no invalid-mode error is reported and valid non-string values
do not resolve. An unresolvable string does give the invalid-mode
ValueError. -/
theorem configure_mode_resolution_typeerror (old : ScanMode) :
    resolve_mode (ModeArg.int 0) old = .error (.typeError attrNameMsg)
    ∧ resolve_mode ModeArg.noneArg old = .error (.typeError attrNameMsg)
    ∧ resolve_mode (ModeArg.str ("manual")) old = .ok ScanMode.manual
    ∧ resolve_mode (ModeArg.str ("bogus")) old = .error (.valueError invalidModeMsg) :=
  ⟨rfl, rfl, rfl, rfl⟩

/-- Claim C3: executing the top level of daq.py raises NameError at the
bare _daq_instance expression on line 602, at which point register_daq,
daq_wrapper and calib_cycle are not yet bound, so the module import fails
and the singleton registration path is unreachable. -/
theorem module_import_fails_at_daq_instance :
    daqModuleRun = .error (("_daq_instance"), daqModuleEnvAtError)
    ∧ daqModuleEnvAtError.contains ("register_daq") = false
    ∧ daqModuleEnvAtError.contains ("daq_wrapper") = false
    ∧ daqModuleEnvAtError.contains ("calib_cycle") = false :=
  ⟨rfl, rfl, rfl, rfl⟩

/-- Claim C4: if the endpoint-facing configure call raises, the stored
configuration becomes None and a subsequent read_configuration() returns
the default (unconfigured) configuration, never a mix of old and new
values; configure itself still returns the (old, new) pair with new being
the default configuration. -/
theorem configure_failure_resets_configuration (st : DaqSt) (ep : Endpoint)
    (events : Option Int) (duration : Option ℚ) (record : Option Bool)
    (use_l3t : Bool) (controls : Option (List (String × CtrlDev)))
    (mode : ModeArg) (m : ScanMode)
    (hconn : st.control = true)
    (hstate : Daq.state st ep = .ok DaqState.Connected
      ∨ Daq.state st ep = .ok DaqState.Configured)
    (hdur : Daq._check_duration duration = .ok ())
    (hmode : resolve_mode mode (Daq.read_configuration st).mode = .ok m)
    (hep : ep.configureOk = false) :
    (Daq.configure st ep events duration record use_l3t controls mode).st.config = none
    ∧ Daq.read_configuration
        (Daq.configure st ep events duration record use_l3t controls mode).st
        = Daq.default_config
    ∧ (Daq.configure st ep events duration record use_l3t controls mode).ret
        = .ok (Daq.read_configuration st, Daq.default_config) := by
  have hmode2 : resolve_mode mode (st.config.getD Daq.default_config).mode
      = .ok m := hmode
  rcases hstate with h | h <;>
    simp [Daq.configure, Daq.connect, Daq.read_configuration, hconn, h, hdur,
      hmode2, hep]

/-- Witness for C4: a concrete configure call from a Configured endpoint
whose configure RPC raises destroys the previously stored configuration. -/
theorem configure_failure_resets_configuration_witness :
    (Daq.configure stConn epFail none none (some false) false none
        (ModeArg.str ("on"))).st.config = none
    ∧ Daq.read_configuration
        (Daq.configure stConn epFail none none (some false) false none
          (ModeArg.str ("on"))).st = Daq.default_config
    ∧ (Daq.configure stConn epFail none none (some false) false none
          (ModeArg.str ("on"))).ret
        = .ok (Daq.default_config, Daq.default_config) := by
  obtain ⟨h1, h2, h3⟩ := configure_failure_resets_configuration stConn epFail
    none none (some false) false none (ModeArg.str ("on")) ScanMode.on
    (by rfl) (Or.inr (by rfl)) (by rfl) (by rfl) (by rfl)
  exact ⟨h1, h2, h3⟩

/-- Claim C5: _begin_args gives explicit call arguments precedence over
the stored configuration: with stored events=100 and no overrides, begin
gets events=100; with an explicit duration=5 the begin is duration-based,
ignoring the stored events; when neither events nor duration resolves,
begin gets the explicit run-forever marker events=0. Stated outside the
plan-attached special case (is_bluesky false), which the specification
describes as a separate override. -/
theorem begin_args_precedence (st : DaqSt) (dstate : DaqState) (cfg : RunConfig)
    (hb : st.is_bluesky = false) (hc : st.config = some cfg)
    (hctrl : cfg.controls = none) :
    (cfg.events = some 100 → cfg.use_l3t = false →
        Daq._begin_args st dstate none none none none
          = { events := some 100, l3t_events := none, duration := none
            , controls := none })
    ∧ Daq._begin_args st dstate none (some 5) none none
        = { events := none, l3t_events := none, duration := some (5, 0)
          , controls := none }
    ∧ (cfg.events = none → cfg.duration = none →
        Daq._begin_args st dstate none none none none
          = { events := some 0, l3t_events := none, duration := none
            , controls := none }) := by
  refine ⟨?_, ?_, ?_⟩
  · intro hev hl3
    simp [Daq._begin_args, Daq.read_configuration, hb, hc, hctrl, hev, hl3]
  · have h5 : ⌊(5 : ℚ)⌋ = 5 := by norm_num
    simp [Daq._begin_args, Daq.read_configuration, hb, hc, hctrl, h5]
  · intro hev hdur
    simp [Daq._begin_args, Daq.read_configuration, hb, hc, hctrl, hev, hdur]

/-- Witness for C5: with the concrete stored configuration events=100,
a kickoff with no overrides resolves to events=100, kickoff(duration=5)
resolves to a duration-based begin, and with the concrete run-forever
configuration an empty kickoff resolves to the events=0 marker. -/
theorem begin_args_precedence_witness :
    Daq._begin_args st100 DaqState.Configured none none none none
      = { events := some 100, l3t_events := none, duration := none
        , controls := none }
    ∧ Daq._begin_args st100 DaqState.Configured none (some 5) none none
      = { events := none, l3t_events := none, duration := some (5, 0)
        , controls := none }
    ∧ Daq._begin_args stForever DaqState.Configured none none none none
      = { events := some 0, l3t_events := none, duration := none
        , controls := none } := by
  obtain ⟨h1, h2, _⟩ := begin_args_precedence st100 DaqState.Configured cfg100
    (by rfl) (by rfl) (by rfl)
  obtain ⟨_, _, h3⟩ := begin_args_precedence stForever DaqState.Configured
    cfgForever (by rfl) (by rfl) (by rfl)
  exact ⟨h1 (by rfl) (by rfl), h2, h3 (by rfl) (by rfl)⟩

/-- The readiness poll consumes at most ceil(tmo * 10) state queries
beyond its starting index: the loop is bounded, not an unbounded wait. -/
theorem pollLoop_le (trace : ℕ → DaqState) :
    ∀ (n : ℕ) (tmo : ℚ) (i : ℕ), ⌈tmo * 10⌉.toNat ≤ n →
      pollLoop trace tmo i ≤ i + ⌈tmo * 10⌉.toNat := by
  intro n
  induction n with
  | zero =>
      intro tmo i hle
      have h1 : ⌈tmo * 10⌉ ≤ 0 := by omega
      have h2 : tmo * 10 ≤ ((0 : ℤ) : ℚ) := Int.ceil_le.mp h1
      have h3 : ¬ (0 < tmo) := by
        intro hpos
        push_cast at h2
        linarith
      rw [pollLoop, dif_neg h3]
      omega
  | succ n ih =>
      intro tmo i hle
      rw [pollLoop]
      by_cases h0 : 0 < tmo
      · rw [dif_pos h0]
        have hpos : 0 < ⌈tmo * 10⌉ := Int.ceil_pos.mpr (by linarith)
        by_cases hr : daqReady (trace i) = true
        · rw [if_pos hr]
          omega
        · rw [if_neg hr]
          have hstep : ⌈(tmo - 1/10) * 10⌉ = ⌈tmo * 10⌉ - 1 := by
            have h4 : (tmo - 1/10) * 10 = tmo * 10 - 1 := by ring
            rw [h4, Int.ceil_sub_one]
          have h5 := ih (tmo - 1/10) (i + 1) (by rw [hstep]; omega)
          rw [hstep] at h5
          omega
      · rw [dif_neg h0]
        omega

/-- Claim C6: the background thread launched by kickoff always terminates.
Its readiness poll consumes a bounded number of state queries (index at
most 21, corresponding to the 2-second budget checked at 0.1 steps); if
the endpoint never reports Configured or Open, the completion handle
resolves to failure with no begin issued, and if the endpoint reports a
ready state, begin is issued with the resolved arguments and the handle
resolves to success. Wall-clock timing is outside this model. -/
theorem kickoff_thread_resolves (st : DaqSt) (trace : ℕ → DaqState)
    (events : Option Int) (duration : Option ℚ) (use_l3t : Option Bool)
    (controls : Option (List (String × CtrlDev))) :
    pollLoop trace 2 1 ≤ 21
    ∧ ((∀ j : ℕ, daqReady (trace j) = false) →
        start_thread st trace events duration use_l3t controls
          = { beginSent := none, success := false })
    ∧ ((∀ j : ℕ, daqReady (trace j) = true) →
        start_thread st trace events duration use_l3t controls
          = { beginSent :=
                some (Daq._begin_args st (trace 0) events duration use_l3t controls)
            , success := true }) := by
  refine ⟨?_, ?_, ?_⟩
  · have h := pollLoop_le trace (⌈(2 : ℚ) * 10⌉.toNat) 2 1 (le_refl _)
    have h20 : ⌈(2 : ℚ) * 10⌉ = 20 := by norm_num
    rw [h20] at h
    simpa using h
  · intro hnr
    simp [start_thread, hnr]
  · intro hr
    simp [start_thread, hr]

/-- Witness for C6: with an endpoint stuck in Connected the thread result
is a failure with no begin issued, and with an endpoint in Open the
thread issues begin and succeeds. -/
theorem kickoff_thread_resolves_witness :
    start_thread stConn (fun _ => DaqState.Connected) none none none none
      = { beginSent := none, success := false }
    ∧ start_thread stConn (fun _ => DaqState.Open) none none none none
      = { beginSent :=
            some (Daq._begin_args stConn DaqState.Open none none none none)
        , success := true } := by
  refine ⟨?_, ?_⟩
  · exact (kickoff_thread_resolves stConn (fun _ => DaqState.Connected)
      none none none none).2.1 (fun j => rfl)
  · exact (kickoff_thread_resolves stConn (fun _ => DaqState.Open)
      none none none none).2.2 (fun j => rfl)

/-- Counterexample to C7 as stated: when the endpoint disconnect call
raises, the clearing statements after it never run, so the handle and the
cached configuration survive, and a state query afterwards still reaches
the endpoint (here reporting Running) instead of Disconnected. -/
theorem disconnect_failure_keeps_handle_counterexample :
    (Daq.disconnect stConn false).st.control = true
    ∧ (Daq.disconnect stConn false).st.config = some Daq.default_config
    ∧ Daq.state (Daq.disconnect stConn false).st
        { stateNum := 4, connectOk := true, configureOk := true }
        = .ok DaqState.Running :=
  ⟨rfl, rfl, rfl⟩

/-- Claim C7, amended: whenever disconnect() returns normally (the
endpoint disconnect call did not raise, or no handle existed), the handle
and the cached configuration are cleared and any state query afterwards
reports Disconnected; when the endpoint call raises, the exception
propagates and nothing is cleared. -/
theorem disconnect_clears_on_success (st : DaqSt) (epOk : Bool)
    (h : (Daq.disconnect st epOk).ret = .ok ()) :
    (Daq.disconnect st epOk).st.control = false
    ∧ (Daq.disconnect st epOk).st.config = none
    ∧ ∀ ep : Endpoint,
        Daq.state (Daq.disconnect st epOk).st ep = .ok DaqState.Disconnected := by
  by_cases hc : st.control = true
  · by_cases he : epOk = true
    · refine ⟨?_, ?_, ?_⟩ <;> simp [Daq.disconnect, Daq.state, hc, he]
    · simp [Daq.disconnect, hc, he] at h
  · refine ⟨?_, ?_, ?_⟩ <;> simp [Daq.disconnect, Daq.state, hc]

/-- Witness for C7: a concrete connected, configured Daq whose endpoint
disconnect succeeds ends Disconnected with handle and configuration
cleared. -/
theorem disconnect_clears_on_success_witness :
    (Daq.disconnect stConn true).st.control = false
    ∧ (Daq.disconnect stConn true).st.config = none
    ∧ Daq.state (Daq.disconnect stConn true).st
        { stateNum := 4, connectOk := true, configureOk := true }
        = .ok DaqState.Disconnected := by
  obtain ⟨h1, h2, h3⟩ := disconnect_clears_on_success stConn true (by rfl)
  exact ⟨h1, h2, h3 _⟩

/-- Claim C8: from a state admitting configure, any duration below 1
second makes configure fail with the reported validation RuntimeError,
before the endpoint-facing configure RPC is invoked and with the Daq
state unchanged, while duration=2 (with a resolvable mode argument)
passes validation and reaches the endpoint configure call. -/
theorem configure_duration_validation (st : DaqSt) (ep : Endpoint)
    (events : Option Int) (record : Option Bool) (use_l3t : Bool)
    (controls : Option (List (String × CtrlDev))) (mode : ModeArg)
    (hconn : st.control = true)
    (hstate : Daq.state st ep = .ok DaqState.Connected
      ∨ Daq.state st ep = .ok DaqState.Configured) :
    (∀ d : ℚ, d < 1 →
        (Daq.configure st ep events (some d) record use_l3t controls mode).ret
            = .error (.runtimeError durationErrMsg)
        ∧ (Daq.configure st ep events (some d) record use_l3t controls
            mode).epConfigureCalled = false
        ∧ (Daq.configure st ep events (some d) record use_l3t controls
            mode).st = st)
    ∧ (Daq.configure st ep events (some 2) record use_l3t controls
        (ModeArg.str ("on"))).epConfigureCalled = true := by
  constructor
  · intro d hd
    rcases hstate with h | h <;>
      refine ⟨?_, ?_, ?_⟩ <;>
        simp [Daq.configure, Daq.connect, Daq._check_duration, hconn, h, hd]
  · rcases hstate with h | h <;>
      cases hcfg : ep.configureOk <;>
        simp [Daq.configure, Daq.connect, Daq._check_duration, resolve_mode,
          getattrModeEnum, hconn, h, hcfg]

/-- Witness for C8: a concrete configure(duration=0.5) fails with the
validation RuntimeError, makes no endpoint configure call and leaves the
Daq state untouched, while configure(duration=2, mode=on) reaches the
endpoint configure call. -/
theorem configure_duration_validation_witness :
    ((Daq.configure stConn epOkC none (some (1/2)) (some false) false none
        (ModeArg.str ("on"))).ret = .error (.runtimeError durationErrMsg)
      ∧ (Daq.configure stConn epOkC none (some (1/2)) (some false) false none
          (ModeArg.str ("on"))).epConfigureCalled = false
      ∧ (Daq.configure stConn epOkC none (some (1/2)) (some false) false none
          (ModeArg.str ("on"))).st = stConn)
    ∧ (Daq.configure stConn epOkC none (some 2) (some false) false none
        (ModeArg.str ("on"))).epConfigureCalled = true := by
  obtain ⟨h1, h2⟩ := configure_duration_validation stConn epOkC none
    (some false) false none (ModeArg.str ("on")) (by rfl) (Or.inr (by rfl))
  exact ⟨h1 (1/2) (by norm_num), h2⟩

/-- Claim C9: daq_wrapper is claimed to run the given plan with the
controller participating as a flyer and to leave the hook slot empty
afterward. In the code, the plan argument is never iterated: yield from
is applied to a bare functools.partial object, which raises TypeError at
once, so no plan message is ever yielded; the except clause does clear
the hook before re-raising, so the hook slot ends empty, but the plan is
never run. -/
theorem daq_wrapper_never_runs_plan (plan : List MsgCmd) :
    (daq_wrapper plan).ret = .error (.typeError notIterableMsg)
    ∧ (daq_wrapper plan).yielded = []
    ∧ (daq_wrapper plan).msg_hook_installed = false :=
  ⟨rfl, rfl, rfl⟩

/-- Claim C10: describe_configuration is claimed to return a
field-to-metadata mapping whose controls shape is [count, 2] or None. In
the code, the try block subscripts the configuration dict with the key
control, which does not exist (the key is controls), raising KeyError;
the except clause catches only RuntimeError and AttributeError, so for
every configuration state describe_configuration raises KeyError instead
of returning the mapping. -/
theorem describe_configuration_always_raises_keyerror (st : DaqSt) :
    Daq.describe_configuration st = .error (.keyError ("control")) :=
  rfl
